import Mathlib

/-!
Verification development for the Pyrip engine-dispatch and job-completion
protocol.  The definitions below are a shallow embedding of the two source
functions:

* `performPyripEngineScrape` — the status-polling completion state machine
  (anomaly ceiling 3, overall timeout, fixed 250 ms inter-poll delay);
* `scrapeURLWithPyripEngineChromeCDP` — the chrome-cdp request builder,
  which compiles the `waitFor` and screenshot options into an action
  pipeline and omits the `actions` field when the pipeline is empty.

Time is modelled by an abstract `clock : Nat → Nat` giving the elapsed
wall-clock milliseconds (`Date.now() - startTime`) observed at the
loop-start check of each iteration; the status query is modelled by an
abstract `query : Nat → StatusOutcome σ ε α` giving the outcome of the
i-th issued status query.  The loop is given fuel to make it total;
`none` means the fuel ran out before the loop terminated.
-/

namespace Pyrip

/-- Outcome of one `pyripEngineCheckStatus` call, as observed by the
polling loop: a returned success value, a `StillProcessingError`, an
`EngineError`, or any other (unexpected) thrown error. -/
inductive StatusOutcome (σ ε α : Type) where
  | success : σ → StatusOutcome σ ε α
  | stillProcessing : StatusOutcome σ ε α
  | engineFailure : ε → StatusOutcome σ ε α
  | unexpected : α → StatusOutcome σ ε α
deriving DecidableEq

/-- Terminal result of one polling cycle: the returned status on success,
the rethrown engine error, the `TimeoutError` (carrying the error list and
the timeout), or the error-limit error (carrying the error list). -/
inductive PollResult (σ ε α : Type) where
  | success : σ → PollResult σ ε α
  | fatal : ε → PollResult σ ε α
  | timedOut : List α → Nat → PollResult σ ε α
  | errorLimitExceeded : List α → PollResult σ ε α
deriving DecidableEq

/-- Observable effects of the polling loop: issuing the i-th status query,
or sleeping one 250 ms inter-poll delay. -/
inductive PollEvent where
  | query : Nat → PollEvent
  | delay : PollEvent
deriving DecidableEq

/-- `const errorLimit = 3` in `performPyripEngineScrape`. -/
def errorLimit : Nat := 3

/-- `export const defaultTimeout = 10000`. -/
def defaultTimeout : Nat := 10000

/-- The inter-poll delay passed to `setTimeout`, in milliseconds. -/
def pollDelayMs : Nat := 250

/-- The polling loop of `performPyripEngineScrape`.  Each iteration, in
source order: (1) if `errors.length >= errorLimit`, throw the error-limit
error carrying `errors`; (2) if `Date.now() - startTime > timeout`, throw
`TimeoutError` carrying `errors` and `timeout`; (3) issue one status
query: a returned status terminates the loop (after the trailing 250 ms
delay) returning it, `StillProcessingError` loops with no anomaly
recorded, `EngineError` is rethrown at once (no delay), and any other
error is appended to `errors`; (4) sleep 250 ms and re-check.  The result
also carries the final `errors` list and the trace of queries/delays
performed. -/
def pollLoop (query : Nat → StatusOutcome σ ε α) (clock : Nat → Nat)
    (timeout : Nat) :
    Nat → List α → Nat → Option (PollResult σ ε α × List α × List PollEvent)
  | 0, _, _ => none
  | fuel + 1, errs, i =>
    if errs.length ≥ errorLimit then
      some (PollResult.errorLimitExceeded errs, errs, [])
    else if clock i > timeout then
      some (PollResult.timedOut errs timeout, errs, [])
    else
      match query i with
      | StatusOutcome.success s =>
          some (PollResult.success s, errs, [PollEvent.query i, PollEvent.delay])
      | StatusOutcome.stillProcessing =>
          (pollLoop query clock timeout fuel errs (i + 1)).map
            (fun r => (r.1, r.2.1, PollEvent.query i :: PollEvent.delay :: r.2.2))
      | StatusOutcome.engineFailure e =>
          some (PollResult.fatal e, errs, [PollEvent.query i])
      | StatusOutcome.unexpected a =>
          (pollLoop query clock timeout fuel (errs ++ [a]) (i + 1)).map
            (fun r => (r.1, r.2.1, PollEvent.query i :: PollEvent.delay :: r.2.2))

/-- The `{ jobId, processing }` response of `pyripEngineScrape` (the
dispatcher), validated by the zod schema in `scrape.ts`. -/
structure JobHandle where
  jobId : String
  processing : Bool
deriving DecidableEq

/-- `performPyripEngineScrape` after the dispatch call: starts the polling
cycle with an empty error list, keyed by the job handle's `jobId` (the
`processing` field is never read). -/
def performPyripEngineScrape (checkStatus : String → Nat → StatusOutcome σ ε α)
    (handle : JobHandle) (clock : Nat → Nat) (timeout : Nat) (fuel : Nat) :
    Option (PollResult σ ε α × List α × List PollEvent) :=
  pollLoop (checkStatus handle.jobId) clock timeout fuel [] 0

/-- Modelled from the spec: the `Action` entity type lives in
`lib/entities`, outside the provided sources.  Per §3 it is a tagged union
of operation kinds — "wait N milliseconds", "capture screenshot,
optionally full-page", plus caller-supplied actions (here `other`,
carrying an opaque tag). -/
inductive Action where
  | wait : Nat → Action
  | screenshot : Bool → Action
  | other : String → Action
deriving DecidableEq

/-- The slice of `meta.options` read by `scrapeURLWithPyripEngineChromeCDP`:
`waitFor`, `formats`, `actions`, `skipTlsVerification`, `headers`, plus
the priority hint (§3) for the truncated tail of the request literal. -/
structure ScrapeOptions where
  waitFor : Nat
  formats : List String
  actions : Option (List Action)
  skipTlsVerification : Option Bool
  headers : Option (List (String × String))
  priority : Option Nat
deriving DecidableEq

/-- The slice of `Meta` read by the chrome-cdp facade: the target url and
the scrape options. -/
structure Meta where
  url : String
  options : ScrapeOptions
deriving DecidableEq

/-- The `const actions: Action[] = [...]` literal of
`scrapeURLWithPyripEngineChromeCDP`: a wait action when
`meta.options.waitFor !== 0`, then a screenshot action when either
screenshot format is requested (full-page flag iff
`"screenshot@fullPage"` is among the formats), then the caller's own
actions (`meta.options.actions ?? []`) in their original order. -/
def chromeCDPActions (o : ScrapeOptions) : List Action :=
  (if o.waitFor ≠ 0 then [Action.wait o.waitFor] else [])
    ++ (if o.formats.contains "screenshot" || o.formats.contains "screenshot@fullPage" then
          [Action.screenshot (o.formats.contains "screenshot@fullPage")]
        else [])
    ++ o.actions.getD []

/-- The chrome-cdp `EngineRequest`
(`PyripEngineScrapeRequestCommon & PyripEngineScrapeRequestChromeCDP`)
as built by the facade; `actions = none` models the field being omitted
from the payload. -/
structure ChromeCDPRequest where
  url : String
  engine : String
  instantReturn : Bool
  skipTlsVerification : Option Bool
  headers : Option (List (String × String))
  actions : Option (List Action)
  priority : Option Nat
deriving DecidableEq

/-- The request object built by `scrapeURLWithPyripEngineChromeCDP`
(the source file is truncated right after the `priority` field name; the
priority value is modelled from the spec §3/§4.1 as the pass-through of
the caller's priority hint).  The spread
`...(actions.length > 0 ? { actions } : {})` omits the `actions` field
when the synthesized pipeline is empty. -/
def scrapeURLWithPyripEngineChromeCDP (meta : Meta) : ChromeCDPRequest :=
  let acts := chromeCDPActions meta.options
  { url := meta.url
    engine := "chrome-cdp"
    instantReturn := true
    skipTlsVerification := meta.options.skipTlsVerification
    headers := meta.options.headers
    actions := if acts.length > 0 then some acts else none
    priority := meta.options.priority }

/-- A poll trace is well spaced when queries and delays strictly
alternate, starting with a query — each delay window contains at most one
query — with at most one trailing query not followed by a delay. -/
def wellSpaced : List PollEvent → Bool
  | [] => true
  | [PollEvent.query _] => true
  | PollEvent.query _ :: PollEvent.delay :: rest => wellSpaced rest
  | _ => false

/-! ### Step lemmas for the polling loop -/

/-- When the anomaly ceiling is reached, the iteration throws the
error-limit error before anything else. -/
theorem pollLoop_ceiling (query : Nat → StatusOutcome σ ε α) (clock : Nat → Nat)
    (timeout fuel : Nat) (errs : List α) (i : Nat) (h : errs.length ≥ errorLimit) :
    pollLoop query clock timeout (fuel + 1) errs i
      = some (PollResult.errorLimitExceeded errs, errs, []) := by
  rw [pollLoop, if_pos h]

/-- When the ceiling is not reached but the elapsed time exceeds the
timeout, the iteration throws `TimeoutError`. -/
theorem pollLoop_timeout (query : Nat → StatusOutcome σ ε α) (clock : Nat → Nat)
    (timeout fuel : Nat) (errs : List α) (i : Nat)
    (hc : errs.length < errorLimit) (ht : clock i > timeout) :
    pollLoop query clock timeout (fuel + 1) errs i
      = some (PollResult.timedOut errs timeout, errs, []) := by
  rw [pollLoop, if_neg (Nat.not_le.mpr hc), if_pos ht]

/-- When both loop-start checks pass and the status query returns a
status, the loop sleeps once more and returns it. -/
theorem pollLoop_success (query : Nat → StatusOutcome σ ε α) (clock : Nat → Nat)
    (timeout fuel : Nat) (errs : List α) (i : Nat) (s : σ)
    (hc : errs.length < errorLimit) (ht : ¬ clock i > timeout)
    (hq : query i = StatusOutcome.success s) :
    pollLoop query clock timeout (fuel + 1) errs i
      = some (PollResult.success s, errs, [PollEvent.query i, PollEvent.delay]) := by
  rw [pollLoop, if_neg (Nat.not_le.mpr hc), if_neg ht, hq]

/-- When both loop-start checks pass and the status query throws
`EngineError`, the error is rethrown at once, with no trailing delay. -/
theorem pollLoop_fatal (query : Nat → StatusOutcome σ ε α) (clock : Nat → Nat)
    (timeout fuel : Nat) (errs : List α) (i : Nat) (e : ε)
    (hc : errs.length < errorLimit) (ht : ¬ clock i > timeout)
    (hq : query i = StatusOutcome.engineFailure e) :
    pollLoop query clock timeout (fuel + 1) errs i
      = some (PollResult.fatal e, errs, [PollEvent.query i]) := by
  rw [pollLoop, if_neg (Nat.not_le.mpr hc), if_neg ht, hq]

/-- When both loop-start checks pass and the status query throws
`StillProcessingError`, the loop records no anomaly, sleeps, and
continues. -/
theorem pollLoop_still (query : Nat → StatusOutcome σ ε α) (clock : Nat → Nat)
    (timeout fuel : Nat) (errs : List α) (i : Nat)
    (hc : errs.length < errorLimit) (ht : ¬ clock i > timeout)
    (hq : query i = StatusOutcome.stillProcessing) :
    pollLoop query clock timeout (fuel + 1) errs i
      = (pollLoop query clock timeout fuel errs (i + 1)).map
          (fun r => (r.1, r.2.1, PollEvent.query i :: PollEvent.delay :: r.2.2)) := by
  rw [pollLoop, if_neg (Nat.not_le.mpr hc), if_neg ht, hq]

/-- When both loop-start checks pass and the status query throws an
unexpected error, it is appended to the error list and the loop sleeps
and continues. -/
theorem pollLoop_unexpected (query : Nat → StatusOutcome σ ε α) (clock : Nat → Nat)
    (timeout fuel : Nat) (errs : List α) (i : Nat) (a : α)
    (hc : errs.length < errorLimit) (ht : ¬ clock i > timeout)
    (hq : query i = StatusOutcome.unexpected a) :
    pollLoop query clock timeout (fuel + 1) errs i
      = (pollLoop query clock timeout fuel (errs ++ [a]) (i + 1)).map
          (fun r => (r.1, r.2.1, PollEvent.query i :: PollEvent.delay :: r.2.2)) := by
  rw [pollLoop, if_neg (Nat.not_le.mpr hc), if_neg ht, hq]

/-! ### Claim theorems -/

/-- C1: In every polling iteration, the anomaly-ceiling check is evaluated
before the timeout check: whenever the accumulated anomaly count has
reached the ceiling, the cycle terminates as `ErrorLimitExceeded`
(carrying the full anomaly log), with no assumption on the clock — in
particular even when the elapsed time already exceeds the timeout. -/
theorem ceiling_checked_before_timeout (query : Nat → StatusOutcome σ ε α)
    (clock : Nat → Nat) (timeout fuel : Nat) (errs : List α) (i : Nat)
    (h : errs.length ≥ errorLimit) :
    pollLoop query clock timeout (fuel + 1) errs i
      = some (PollResult.errorLimitExceeded errs, errs, []) :=
  pollLoop_ceiling query clock timeout fuel errs i h

/-- Witness for C1 at a concrete input where the elapsed time (50) also
already exceeds the timeout (10): the cycle still exits as
`ErrorLimitExceeded`. -/
theorem ceiling_checked_before_timeout_witness :
    (50 : Nat) > 10 ∧ ([7, 8, 9] : List Nat).length ≥ errorLimit ∧
    pollLoop ((fun _ => StatusOutcome.stillProcessing) : Nat → StatusOutcome Nat Nat Nat)
        (fun _ => 50) 10 1 [7, 8, 9] 0
      = some (PollResult.errorLimitExceeded [7, 8, 9], [7, 8, 9], []) :=
  ⟨by decide, by decide,
    ceiling_checked_before_timeout
      ((fun _ => StatusOutcome.stillProcessing) : Nat → StatusOutcome Nat Nat Nat)
      (fun _ => 50) 10 0 [7, 8, 9] 0 (by decide)⟩

/-- C2: whenever the status query yields `EngineFailure` (which can only
happen when the ceiling and timeout checks both passed), the cycle
terminates as `Fatal` at once, carrying the engine error unmodified,
whatever the current anomaly list below the ceiling. -/
theorem engineFailure_terminates_fatal (query : Nat → StatusOutcome σ ε α)
    (clock : Nat → Nat) (timeout fuel : Nat) (errs : List α) (i : Nat) (e : ε)
    (hc : errs.length < errorLimit) (ht : ¬ clock i > timeout)
    (hq : query i = StatusOutcome.engineFailure e) :
    pollLoop query clock timeout (fuel + 1) errs i
      = some (PollResult.fatal e, errs, [PollEvent.query i]) :=
  pollLoop_fatal query clock timeout fuel errs i e hc ht hq

/-- Witness for C2 at the very first poll: `EngineFailure` on query 0
gives `Fatal` carrying the engine error (99) with zero recorded
anomalies. -/
theorem engineFailure_terminates_fatal_witness :
    ([] : List Nat).length < errorLimit ∧ ¬ (0 : Nat) > 10 ∧
    pollLoop ((fun _ => StatusOutcome.engineFailure 99) : Nat → StatusOutcome Nat Nat Nat)
        (fun _ => 0) 10 1 [] 0
      = some (PollResult.fatal 99, [], [PollEvent.query 0]) :=
  ⟨by decide, by decide,
    engineFailure_terminates_fatal
      ((fun _ => StatusOutcome.engineFailure 99) : Nat → StatusOutcome Nat Nat Nat)
      (fun _ => 0) 10 0 [] 0 99 (by decide) (by decide) rfl⟩

/-- C3: three consecutive unexpected errors from the start of the cycle,
with the timeout never exceeded meanwhile, terminate the attempt as
`ErrorLimitExceeded` whose diagnostic payload is exactly the 3 recorded
anomalies. -/
theorem three_unexpected_hits_error_limit (query : Nat → StatusOutcome σ ε α)
    (clock : Nat → Nat) (timeout fuel : Nat) (a : Nat → α)
    (hq : ∀ j, j < 3 → query j = StatusOutcome.unexpected (a j))
    (ht : ∀ j, j < 3 → ¬ clock j > timeout) :
    pollLoop query clock timeout (fuel + 4) [] 0
      = some (PollResult.errorLimitExceeded [a 0, a 1, a 2], [a 0, a 1, a 2],
          [PollEvent.query 0, PollEvent.delay, PollEvent.query 1, PollEvent.delay,
            PollEvent.query 2, PollEvent.delay]) ∧
    ([a 0, a 1, a 2] : List α).length = 3 := by
  refine ⟨?_, rfl⟩
  rw [show fuel + 4 = (fuel + 3) + 1 from rfl,
    pollLoop_unexpected query clock timeout (fuel + 3) [] 0 (a 0)
      (by norm_num [errorLimit]) (ht 0 (by decide)) (hq 0 (by decide))]
  simp only [List.nil_append]
  rw [show fuel + 3 = (fuel + 2) + 1 from rfl,
    pollLoop_unexpected query clock timeout (fuel + 2) [a 0] 1 (a 1)
      (by norm_num [errorLimit]) (ht 1 (by decide)) (hq 1 (by decide))]
  simp only [List.cons_append, List.nil_append]
  rw [show fuel + 2 = (fuel + 1) + 1 from rfl,
    pollLoop_unexpected query clock timeout (fuel + 1) [a 0, a 1] 2 (a 2)
      (by norm_num [errorLimit]) (ht 2 (by decide)) (hq 2 (by decide))]
  simp only [List.cons_append, List.nil_append]
  rw [pollLoop_ceiling query clock timeout fuel [a 0, a 1, a 2] 3 (by norm_num [errorLimit])]
  rfl

/-- Witness for C3: concrete query raising unexpected errors 10, 11, 12
on the three polls; the cycle ends as `ErrorLimitExceeded` carrying
exactly those 3 anomalies. -/
theorem three_unexpected_hits_error_limit_witness :
    pollLoop ((fun j => StatusOutcome.unexpected (j + 10)) : Nat → StatusOutcome Nat Nat Nat)
        (fun _ => 0) 10 4 [] 0
      = some (PollResult.errorLimitExceeded [10, 11, 12], [10, 11, 12],
          [PollEvent.query 0, PollEvent.delay, PollEvent.query 1, PollEvent.delay,
            PollEvent.query 2, PollEvent.delay]) ∧
    ([10, 11, 12] : List Nat).length = 3 :=
  three_unexpected_hits_error_limit
    ((fun j => StatusOutcome.unexpected (j + 10)) : Nat → StatusOutcome Nat Nat Nat)
    (fun _ => 0) 10 0 (fun j => j + 10) (fun _ _ => rfl) (fun j _ => by norm_num)

/-- C4: at a loop-start check with the anomaly count below the ceiling
and the elapsed time beyond the timeout, the cycle terminates as
`TimedOut`, carrying the accumulated anomaly log and the configured
timeout; moreover, in the concrete scenario timeout = 1000 ms, poll
delay = 250 ms, status always `StillProcessing` (clock = 250·i), the
attempt fails as `TimedOut` with an empty anomaly log after the fifth
poll. -/
theorem timeout_terminates_timedOut (query : Nat → StatusOutcome σ ε α)
    (clock : Nat → Nat) (timeout fuel : Nat) (errs : List α) (i : Nat)
    (hc : errs.length < errorLimit) (ht : clock i > timeout) :
    pollLoop query clock timeout (fuel + 1) errs i
      = some (PollResult.timedOut errs timeout, errs, []) ∧
    pollLoop ((fun _ => StatusOutcome.stillProcessing) : Nat → StatusOutcome Nat Nat Nat)
        (fun j => 250 * j) 1000 11 [] 0
      = some (PollResult.timedOut [] 1000, [],
          [PollEvent.query 0, PollEvent.delay, PollEvent.query 1, PollEvent.delay,
            PollEvent.query 2, PollEvent.delay, PollEvent.query 3, PollEvent.delay,
            PollEvent.query 4, PollEvent.delay]) :=
  ⟨pollLoop_timeout query clock timeout fuel errs i hc ht, by rfl⟩

/-- Witness for C4: at iteration 5 of the always-`StillProcessing`
scenario the elapsed time 1250 exceeds the timeout 1000 and the cycle
exits as `TimedOut` with the empty anomaly log and the timeout value. -/
theorem timeout_terminates_timedOut_witness :
    ((fun j => 250 * j) 5 > 1000 ∧ ([] : List Nat).length < errorLimit) ∧
    pollLoop ((fun _ => StatusOutcome.stillProcessing) : Nat → StatusOutcome Nat Nat Nat)
        (fun j => 250 * j) 1000 1 [] 5
      = some (PollResult.timedOut [] 1000, [], []) :=
  ⟨⟨by decide, by decide⟩,
    (timeout_terminates_timedOut
      ((fun _ => StatusOutcome.stillProcessing) : Nat → StatusOutcome Nat Nat Nat)
      (fun j => 250 * j) 1000 0 [] 5 (by decide) (by decide)).1⟩

/-- C5: `StillProcessing` records no anomaly and keeps polling: for the
status sequence [StillProcessing, unexpected error, Success] with the
timeout never exceeded, the attempt terminates as `Success` carrying the
success payload, with exactly 1 recorded anomaly. -/
theorem still_anomaly_success_scenario (query : Nat → StatusOutcome σ ε α)
    (clock : Nat → Nat) (timeout fuel : Nat) (a : α) (s : σ)
    (h0 : query 0 = StatusOutcome.stillProcessing)
    (h1 : query 1 = StatusOutcome.unexpected a)
    (h2 : query 2 = StatusOutcome.success s)
    (ht : ∀ j, j < 3 → ¬ clock j > timeout) :
    pollLoop query clock timeout (fuel + 3) [] 0
      = some (PollResult.success s, [a],
          [PollEvent.query 0, PollEvent.delay, PollEvent.query 1, PollEvent.delay,
            PollEvent.query 2, PollEvent.delay]) ∧
    ([a] : List α).length = 1 := by
  refine ⟨?_, rfl⟩
  rw [show fuel + 3 = (fuel + 2) + 1 from rfl,
    pollLoop_still query clock timeout (fuel + 2) [] 0
      (by norm_num [errorLimit]) (ht 0 (by decide)) h0]
  rw [show fuel + 2 = (fuel + 1) + 1 from rfl,
    pollLoop_unexpected query clock timeout (fuel + 1) [] 1 a
      (by norm_num [errorLimit]) (ht 1 (by decide)) h1]
  simp only [List.nil_append]
  rw [pollLoop_success query clock timeout fuel [a] 2 s
    (by norm_num [errorLimit]) (ht 2 (by decide)) h2]
  rfl

/-- Witness for C5: concrete sequence [StillProcessing, unexpected 42,
Success 7] ends as `Success 7` with the single anomaly 42 recorded. -/
theorem still_anomaly_success_scenario_witness :
    pollLoop ((fun j => if j = 0 then StatusOutcome.stillProcessing
        else if j = 1 then StatusOutcome.unexpected 42
        else StatusOutcome.success 7) : Nat → StatusOutcome Nat Nat Nat)
        (fun j => 250 * j) 10000 3 [] 0
      = some (PollResult.success 7, [42],
          [PollEvent.query 0, PollEvent.delay, PollEvent.query 1, PollEvent.delay,
            PollEvent.query 2, PollEvent.delay]) ∧
    ([42] : List Nat).length = 1 :=
  still_anomaly_success_scenario
    ((fun j => if j = 0 then StatusOutcome.stillProcessing
        else if j = 1 then StatusOutcome.unexpected 42
        else StatusOutcome.success 7) : Nat → StatusOutcome Nat Nat Nat)
    (fun j => 250 * j) 10000 0 42 7 rfl rfl rfl (fun j hj => by show ¬ 250 * j > 10000; omega)

/-- C6 counterexample: on a successful first poll the loop still sleeps
the 250 ms inter-poll delay before returning — the trace of the run ends
with a delay event after the query that observed `Success`, so the claim
that no inter-poll delay is taken on a `Success` exit is false (the
`setTimeout` sleep sits after the try/catch and runs before the `while`
condition is re-checked). -/
theorem success_exit_sleeps_cex :
    pollLoop ((fun _ => StatusOutcome.success 7) : Nat → StatusOutcome Nat Nat Nat)
        (fun _ => 0) 10 1 [] 0
      = some (PollResult.success 7, [], [PollEvent.query 0, PollEvent.delay]) ∧
    List.getLast? [PollEvent.query 0, PollEvent.delay] = some PollEvent.delay :=
  ⟨rfl, rfl⟩

/-- C6 (amended): every run's trace strictly alternates queries and
delays starting with a query — so at most one status query is issued per
delay window — a `Success` exit ends with the inter-poll delay taken
after the final query, and only a `Fatal` exit skips the trailing delay
(its trace ends with the query itself). -/
theorem poll_trace_delay_discipline (query : Nat → StatusOutcome σ ε α)
    (clock : Nat → Nat) (timeout : Nat) :
    ∀ (fuel : Nat) (errs : List α) (i : Nat) (r : PollResult σ ε α)
      (fe : List α) (tr : List PollEvent),
      pollLoop query clock timeout fuel errs i = some (r, fe, tr) →
      wellSpaced tr = true ∧
      (∀ s, r = PollResult.success s → ∃ l, tr = l ++ [PollEvent.delay]) ∧
      (∀ e, r = PollResult.fatal e → ∃ l j, tr = l ++ [PollEvent.query j]) := by
  intro fuel
  induction fuel with
  | zero => intro errs i r fe tr h; simp [pollLoop] at h
  | succ n ih =>
    intro errs i r fe tr h
    rw [pollLoop] at h
    by_cases hc : errs.length ≥ errorLimit
    · rw [if_pos hc] at h
      simp only [Option.some.injEq, Prod.mk.injEq] at h
      obtain ⟨rfl, rfl, rfl⟩ := h
      refine ⟨rfl, ?_, ?_⟩ <;> intro x hx <;> simp at hx
    · rw [if_neg hc] at h
      by_cases htm : clock i > timeout
      · rw [if_pos htm] at h
        simp only [Option.some.injEq, Prod.mk.injEq] at h
        obtain ⟨rfl, rfl, rfl⟩ := h
        refine ⟨rfl, ?_, ?_⟩ <;> intro x hx <;> simp at hx
      · rw [if_neg htm] at h
        rcases hq : query i with s' | _ | e' | a' <;> simp only [hq] at h
        · simp only [Option.some.injEq, Prod.mk.injEq] at h
          obtain ⟨rfl, rfl, rfl⟩ := h
          refine ⟨rfl, ?_, ?_⟩
          · exact fun s _ => ⟨[PollEvent.query i], rfl⟩
          · intro e he; simp at he
        · rcases hrec : pollLoop query clock timeout n errs (i + 1) with - | ⟨r', fe', tr'⟩ <;>
            rw [hrec] at h
          · simp at h
          · simp only [Option.map_some', Option.some.injEq, Prod.mk.injEq] at h
            obtain ⟨rfl, rfl, rfl⟩ := h
            obtain ⟨hws, hsucc, hfat⟩ := ih errs (i + 1) r' fe' tr' hrec
            refine ⟨?_, ?_, ?_⟩
            · simpa [wellSpaced] using hws
            · intro s hs
              obtain ⟨l, rfl⟩ := hsucc s hs
              exact ⟨PollEvent.query i :: PollEvent.delay :: l, by simp⟩
            · intro e he
              obtain ⟨l, j, rfl⟩ := hfat e he
              exact ⟨PollEvent.query i :: PollEvent.delay :: l, j, by simp⟩
        · simp only [Option.some.injEq, Prod.mk.injEq] at h
          obtain ⟨rfl, rfl, rfl⟩ := h
          refine ⟨rfl, ?_, ?_⟩
          · intro s hs; simp at hs
          · exact fun e _ => ⟨[], i, rfl⟩
        · rcases hrec : pollLoop query clock timeout n (errs ++ [a']) (i + 1) with - | ⟨r', fe', tr'⟩ <;>
            rw [hrec] at h
          · simp at h
          · simp only [Option.map_some', Option.some.injEq, Prod.mk.injEq] at h
            obtain ⟨rfl, rfl, rfl⟩ := h
            obtain ⟨hws, hsucc, hfat⟩ := ih (errs ++ [a']) (i + 1) r' fe' tr' hrec
            refine ⟨?_, ?_, ?_⟩
            · simpa [wellSpaced] using hws
            · intro s hs
              obtain ⟨l, rfl⟩ := hsucc s hs
              exact ⟨PollEvent.query i :: PollEvent.delay :: l, by simp⟩
            · intro e he
              obtain ⟨l, j, rfl⟩ := hfat e he
              exact ⟨PollEvent.query i :: PollEvent.delay :: l, j, by simp⟩

/-- Witness for amended C6 on a concrete `Fatal` run: the trace is the
single query with no trailing delay, and it is well spaced. -/
theorem poll_trace_delay_discipline_witness :
    wellSpaced [PollEvent.query 0] = true ∧
    (∀ s, (PollResult.fatal 99 : PollResult Nat Nat Nat) = PollResult.success s →
      ∃ l, [PollEvent.query 0] = l ++ [PollEvent.delay]) ∧
    (∀ e, (PollResult.fatal 99 : PollResult Nat Nat Nat) = PollResult.fatal e →
      ∃ l j, [PollEvent.query 0] = l ++ [PollEvent.query j]) :=
  poll_trace_delay_discipline
    ((fun _ => StatusOutcome.engineFailure 99) : Nat → StatusOutcome Nat Nat Nat)
    (fun _ => 0) 10 1 [] 0 (PollResult.fatal 99) [] [PollEvent.query 0] rfl

/-- C7 counterexample: with waitFor = 5, a requested screenshot format
and zero caller actions, the built pipeline has length 2, not N + 1 = 1 —
the screenshot format synthesizes a second action, so the claim's length
statement fails for specs that also request a screenshot. -/
theorem wait_pipeline_length_cex :
    (⟨5, ["screenshot"], some [], none, none, none⟩ : ScrapeOptions).waitFor ≠ 0 ∧
    ((⟨5, ["screenshot"], some [], none, none, none⟩ : ScrapeOptions).actions.getD []).length
      = 0 ∧
    (chromeCDPActions ⟨5, ["screenshot"], some [], none, none, none⟩).length ≠ 0 + 1 :=
  ⟨by decide, rfl, by decide⟩

/-- C7 (amended): for a spec with non-zero wait duration, no requested
screenshot format and N caller actions, the chrome-cdp pipeline is
exactly the synthesized wait action (carrying the spec's wait duration)
followed by the caller's actions in their original order — so its length
is N + 1. -/
theorem wait_pipeline_shape (o : ScrapeOptions) (hw : o.waitFor ≠ 0)
    (hs : (o.formats.contains "screenshot" || o.formats.contains "screenshot@fullPage")
      = false) :
    chromeCDPActions o = Action.wait o.waitFor :: o.actions.getD [] ∧
    (chromeCDPActions o).length = (o.actions.getD []).length + 1 := by
  have h : chromeCDPActions o = Action.wait o.waitFor :: o.actions.getD [] := by
    unfold chromeCDPActions
    rw [if_pos hw, if_neg (by rw [hs]; simp)]
    simp
  exact ⟨h, by rw [h]; simp⟩

/-- Witness for amended C7: waitFor = 5, a non-screenshot format and one
caller action give the pipeline [wait 5, caller action] of length 2. -/
theorem wait_pipeline_shape_witness :
    chromeCDPActions ⟨5, ["markdown"], some [Action.other "click"], none, none, none⟩
      = [Action.wait 5, Action.other "click"] ∧
    (chromeCDPActions ⟨5, ["markdown"], some [Action.other "click"], none, none, none⟩).length
      = ([Action.other "click"] : List Action).length + 1 :=
  wait_pipeline_shape ⟨5, ["markdown"], some [Action.other "click"], none, none, none⟩
    (by decide) (by decide)

/-- C8: for a spec with zero wait duration, no requested screenshot
format and no caller actions, the built chrome-cdp request omits the
actions field entirely (modelled as `none`) rather than carrying an
empty list. -/
theorem empty_pipeline_omits_actions (m : Meta) (hw : m.options.waitFor = 0)
    (hs : (m.options.formats.contains "screenshot"
        || m.options.formats.contains "screenshot@fullPage") = false)
    (ha : m.options.actions.getD [] = []) :
    (scrapeURLWithPyripEngineChromeCDP m).actions = none := by
  have h : chromeCDPActions m.options = [] := by
    unfold chromeCDPActions
    rw [if_neg (by simp [hw]), if_neg (by rw [hs]; simp), ha]
    simp
  unfold scrapeURLWithPyripEngineChromeCDP
  simp [h]

/-- Witness for C8: a concrete meta with zero wait, only a markdown
format and absent caller actions yields a request with no actions
field. -/
theorem empty_pipeline_omits_actions_witness :
    (scrapeURLWithPyripEngineChromeCDP
      ⟨"https://example.com", ⟨0, ["markdown"], none, none, none, none⟩⟩).actions = none :=
  empty_pipeline_omits_actions
    ⟨"https://example.com", ⟨0, ["markdown"], none, none, none, none⟩⟩
    rfl (by decide) rfl

/-- C9: for every caller option context, the chrome-cdp request built by
the facade has instantReturn set to true, unconditionally. -/
theorem chromeCDP_instantReturn_always_true (m : Meta) :
    (scrapeURLWithPyripEngineChromeCDP m).instantReturn = true :=
  rfl

/-- C10: the polling cycle never reads the `processing` hint of the job
handle: two dispatch responses sharing a jobId but differing in the
`processing` boolean produce identical runs (same result, same recorded
anomalies, same query/delay trace), and whenever the first loop-start
timeout check passes, the run's trace starts with status query 0 — so at
least one status query is issued even when `processing` is false. -/
theorem processing_hint_irrelevant (checkStatus : String → Nat → StatusOutcome σ ε α)
    (h1 h2 : JobHandle) (clock : Nat → Nat) (timeout fuel : Nat)
    (hid : h1.jobId = h2.jobId) :
    performPyripEngineScrape checkStatus h1 clock timeout fuel
      = performPyripEngineScrape checkStatus h2 clock timeout fuel ∧
    (clock 0 ≤ timeout →
      ∀ r fe tr, performPyripEngineScrape checkStatus h1 clock timeout (fuel + 1)
          = some (r, fe, tr) →
        tr.head? = some (PollEvent.query 0)) := by
  constructor
  · unfold performPyripEngineScrape
    rw [hid]
  · intro hcl r fe tr h
    unfold performPyripEngineScrape at h
    rw [pollLoop, if_neg (by norm_num [errorLimit]), if_neg (Nat.not_lt.mpr hcl)] at h
    rcases hq : checkStatus h1.jobId 0 with s' | _ | e' | a' <;> simp only [hq] at h
    · simp only [Option.some.injEq, Prod.mk.injEq] at h
      obtain ⟨-, -, rfl⟩ := h
      rfl
    · rcases hrec : pollLoop (checkStatus h1.jobId) clock timeout fuel [] 1
        with - | ⟨r', fe', tr'⟩ <;> rw [hrec] at h
      · simp at h
      · simp only [Option.map_some', Option.some.injEq, Prod.mk.injEq] at h
        obtain ⟨-, -, rfl⟩ := h
        rfl
    · simp only [Option.some.injEq, Prod.mk.injEq] at h
      obtain ⟨-, -, rfl⟩ := h
      rfl
    · rcases hrec : pollLoop (checkStatus h1.jobId) clock timeout fuel ([] ++ [a']) 1
        with - | ⟨r', fe', tr'⟩ <;> rw [hrec] at h
      · simp at h
      · simp only [Option.map_some', Option.some.injEq, Prod.mk.injEq] at h
        obtain ⟨-, -, rfl⟩ := h
        rfl

/-- Witness for C10: two handles for job "job1" differing only in the
`processing` hint give identical runs, and the concrete successful run's
trace starts with query 0. -/
theorem processing_hint_irrelevant_witness :
    performPyripEngineScrape
        ((fun _ _ => StatusOutcome.success 7) : String → Nat → StatusOutcome Nat Nat Nat)
        ⟨"job1", true⟩ (fun _ => 0) 10 1
      = performPyripEngineScrape
        ((fun _ _ => StatusOutcome.success 7) : String → Nat → StatusOutcome Nat Nat Nat)
        ⟨"job1", false⟩ (fun _ => 0) 10 1 ∧
    List.head? [PollEvent.query 0, PollEvent.delay] = some (PollEvent.query 0) :=
  ⟨(processing_hint_irrelevant
      ((fun _ _ => StatusOutcome.success 7) : String → Nat → StatusOutcome Nat Nat Nat)
      ⟨"job1", true⟩ ⟨"job1", false⟩ (fun _ => 0) 10 1 rfl).1,
    (processing_hint_irrelevant
      ((fun _ _ => StatusOutcome.success 7) : String → Nat → StatusOutcome Nat Nat Nat)
      ⟨"job1", true⟩ ⟨"job1", false⟩ (fun _ => 0) 10 1 rfl).2 (by decide)
      (PollResult.success 7) [] [PollEvent.query 0, PollEvent.delay] rfl⟩

end Pyrip
